import Mathlib

/-!
Verification of the OhMyCook client core against its source:
the resilient AI-request executor (`callGeminiApi`), the remote persistence
client (`supabaseRequest`, `replaceUserIngredients`, `recordRecipeSearch`),
the two-stage recipe retrieval protocol (`handleRecipeSelect`, overview
marking), and the local-first sync engine (`syncUserData`, push gating).
Each definition is a shallow embedding of the corresponding TypeScript
function; external effects (HTTP fetch, JSON.parse of upstream bodies,
timers) are supplied as explicit oracle inputs.
-/

namespace OhMyCook

/-! ### Resilient Request Executor: `callGeminiApi` (geminiService) -/

/-- What one `fetch('/api/gemini', ...)` attempt looks like to `callGeminiApi`:
a 2xx response with a JSON body, a non-2xx response carrying its status, its
body text and the outcome of `JSON.parse(errorText)` (`some m` when the body
parses as JSON, `m` being `errorData.error || ''`; `none` when parsing
throws), or a network-level exception with its message. -/
inductive FetchOutcome where
  | ok (body : String)
  | httpError (status : Nat) (bodyText : String) (parsedErrorMsg : Option String)
  | networkError (msg : String)
  deriving DecidableEq

/-- Observable result of running `callGeminiApi`: the returned body or the
raised error message, the backoff delays actually slept (in order), and how
many fetch attempts were issued. -/
structure RunResult where
  result : Except String String
  sleeps : List Nat
  attemptsMade : Nat

def MAX_RETRIES : Nat := 3

/-- `errorText || \x7bstatus fallback\x7d` (JS `||` on strings: empty string
falls through to the template literal). -/
def orStatus (msg : String) (status : Nat) : String :=
  if msg = "" then "API call failed with status: " ++ toString status else msg

/-- Whether `pat` occurs at the start of `cs` (helper for the substring test
below). -/
def charsStartWith : List Char → List Char → Bool
  | [], _ => true
  | _ :: _, [] => false
  | a :: as, b :: bs => a = b && charsStartWith as bs

/-- Whether `pat` occurs contiguously somewhere in `cs`. -/
def charsContain (cs pat : List Char) : Bool :=
  match cs with
  | [] => charsStartWith pat []
  | _ :: tail => charsStartWith pat cs || charsContain tail pat

/-- JS `haystack.includes(needle)`. -/
def strIncludes (haystack needle : String) : Bool :=
  charsContain haystack.toList needle.toList

/-- `errorMessage.includes("overloaded") || errorMessage.includes("503")`. -/
def isRetryableMsg (m : String) : Bool :=
  strIncludes m "overloaded" || strIncludes m "503"

/-- The retry loop of `callGeminiApi` (src/unnamed/part_000 lines 302-364),
one recursive step per loop iteration; `fuel` counts the iterations the
`attempt <= MAX_RETRIES` guard still allows.  Faithful points: the throw on a
non-JSON error body and the throw on a non-retryable JSON error both happen
inside the `try`, so the outer `catch` sees them and sleeps/retries whenever
`attempt < MAX_RETRIES`; a retryable JSON error sleeps inside the `try` and
`continue`s; the delay doubles after every sleep. -/
def runGemini (env : Nat → FetchOutcome) : Nat → Nat → Nat → List Nat → RunResult
  | 0, attempt, _delay, sleeps =>
      { result := Except.error "API call failed after all retries.",
        sleeps := sleeps, attemptsMade := attempt - 1 }
  | fuel + 1, attempt, delay, sleeps =>
      match env attempt with
      | FetchOutcome.ok body =>
          { result := Except.ok body, sleeps := sleeps, attemptsMade := attempt }
      | FetchOutcome.httpError status text none =>
          if attempt < MAX_RETRIES then
            runGemini env fuel (attempt + 1) (delay * 2) (sleeps ++ [delay])
          else
            { result := Except.error (orStatus text status),
              sleeps := sleeps, attemptsMade := attempt }
      | FetchOutcome.httpError status _text (some errMsg) =>
          if isRetryableMsg errMsg && decide (attempt < MAX_RETRIES) then
            runGemini env fuel (attempt + 1) (delay * 2) (sleeps ++ [delay])
          else if attempt < MAX_RETRIES then
            runGemini env fuel (attempt + 1) (delay * 2) (sleeps ++ [delay])
          else
            { result := Except.error (orStatus errMsg status),
              sleeps := sleeps, attemptsMade := attempt }
      | FetchOutcome.networkError msg =>
          if attempt < MAX_RETRIES then
            runGemini env fuel (attempt + 1) (delay * 2) (sleeps ++ [delay])
          else
            { result := Except.error msg, sleeps := sleeps, attemptsMade := attempt }

/-- `callGeminiApi`: attempts start at 1 with a 1000 ms backoff delay and no
sleeps performed; `env a` is the outcome of the fetch on attempt `a`. -/
def callGeminiApi (env : Nat → FetchOutcome) : RunResult :=
  runGemini env MAX_RETRIES 1 1000 []

/-- A retryable-classified attempt outcome: a network-level exception, or a
parseable JSON error body whose message contains "overloaded" or "503". -/
def isRetryableOutcome : FetchOutcome → Bool
  | FetchOutcome.ok _ => false
  | FetchOutcome.httpError _ _ none => false
  | FetchOutcome.httpError _ _ (some m) => isRetryableMsg m
  | FetchOutcome.networkError _ => true

/-- Every attempt returns HTTP 504 with the non-JSON body "Gateway Timeout"
(an upstream proxy/timeout page). -/
def nonJsonEnv : Nat → FetchOutcome :=
  fun _ => FetchOutcome.httpError 504 "Gateway Timeout" none

/-- Every attempt returns HTTP 503 with a parseable JSON error body whose
message reports the model as overloaded. -/
def overloadedEnv : Nat → FetchOutcome :=
  fun _ => FetchOutcome.httpError 503 "" (some "The model is overloaded. Please try again later. (503)")

/-- The executor never issues more attempts than the `attempt <= MAX_RETRIES`
guard allows from its starting point. -/
theorem runGemini_attempts_le (env : Nat → FetchOutcome) :
    ∀ fuel attempt delay sleeps,
      (runGemini env fuel attempt delay sleeps).attemptsMade ≤ attempt - 1 + fuel := by
  intro fuel
  induction fuel with
  | zero =>
      intro attempt delay sleeps
      simp [runGemini]
  | succ n ih =>
      intro attempt delay sleeps
      cases h : env attempt with
      | ok body =>
          simp only [runGemini, h]
          omega
      | httpError status text parsed =>
          cases parsed with
          | none =>
              by_cases hlt : attempt < MAX_RETRIES
              · simpa only [runGemini, h, if_pos hlt] using
                  le_trans (ih (attempt + 1) (delay * 2) (sleeps ++ [delay])) (by omega)
              · simp only [runGemini, h, if_neg hlt]
                omega
          | some m =>
              by_cases hlt : attempt < MAX_RETRIES
              · cases hr : isRetryableMsg m with
                | true =>
                    simpa only [runGemini, h, hr, decide_eq_true hlt, Bool.true_and,
                      if_pos trivial, if_true] using
                      le_trans (ih (attempt + 1) (delay * 2) (sleeps ++ [delay])) (by omega)
                | false =>
                    simpa only [runGemini, h, hr, Bool.false_and, if_false, if_pos hlt,
                      Bool.false_eq_true, if_neg] using
                      le_trans (ih (attempt + 1) (delay * 2) (sleeps ++ [delay])) (by omega)
              · have hd : decide (attempt < MAX_RETRIES) = false := by
                  simpa using hlt
                simp only [runGemini, h, hd, Bool.and_false, Bool.false_eq_true, if_false,
                  if_neg hlt]
                omega
      | networkError msg =>
          by_cases hlt : attempt < MAX_RETRIES
          · simpa only [runGemini, h, if_pos hlt] using
              le_trans (ih (attempt + 1) (delay * 2) (sleeps ++ [delay])) (by omega)
          · simp only [runGemini, h, if_neg hlt]
            omega

/-- On a retryable-classified outcome with attempts remaining, one loop
iteration sleeps the current delay, doubles it and moves to the next
attempt. -/
theorem runGemini_retry_step (env : Nat → FetchOutcome) (fuel attempt delay : Nat)
    (sleeps : List Nat) (ha : attempt < MAX_RETRIES)
    (ho : isRetryableOutcome (env attempt) = true) :
    runGemini env (fuel + 1) attempt delay sleeps =
      runGemini env fuel (attempt + 1) (delay * 2) (sleeps ++ [delay]) := by
  cases h : env attempt with
  | ok body => simp [isRetryableOutcome, h] at ho
  | httpError status text parsed =>
      cases parsed with
      | none => simp [isRetryableOutcome, h] at ho
      | some m =>
          have hm : isRetryableMsg m = true := by
            simpa [isRetryableOutcome, h] using ho
          simp [runGemini, h, hm, ha]
  | networkError msg => simp [runGemini, h, ha]

/-- On a retryable-classified outcome at the final attempt, the executor
raises without sleeping again. -/
theorem runGemini_last_step (env : Nat → FetchOutcome) (delay : Nat) (sleeps : List Nat)
    (ho : isRetryableOutcome (env 3) = true) :
    ∃ e, runGemini env 1 3 delay sleeps =
      { result := Except.error e, sleeps := sleeps, attemptsMade := 3 } := by
  cases h : env 3 with
  | ok body => simp [isRetryableOutcome, h] at ho
  | httpError status text parsed =>
      cases parsed with
      | none => simp [isRetryableOutcome, h] at ho
      | some m =>
          refine ⟨orStatus m status, ?_⟩
          simp [runGemini, h, MAX_RETRIES]
  | networkError msg =>
      refine ⟨msg, ?_⟩
      simp [runGemini, h, MAX_RETRIES]

/-- C1: the claim says a non-parseable-JSON error body makes `callGeminiApi`
fail immediately, with no sleep and no further attempt.  The code instead
throws inside the `try` block, so the outer `catch` sees the error and
retries: with every attempt answering HTTP 504 and the non-JSON body
"Gateway Timeout", the executor sleeps 1000 ms and 2000 ms, issues all three
attempts, and only then fails with the raw body text. -/
theorem callGeminiApi_nonJson_body_is_retried :
    (callGeminiApi nonJsonEnv).attemptsMade = 3 ∧
    (callGeminiApi nonJsonEnv).sleeps = [1000, 2000] ∧
    (callGeminiApi nonJsonEnv).result = Except.error "Gateway Timeout" :=
  ⟨by decide, by decide, rfl⟩

/-- C2: with every attempt classified retryable (network exception, or JSON
error message containing "overloaded" or "503"), `callGeminiApi` makes
exactly the bounded 3 attempts, sleeps 1000 ms then 2000 ms (doubling, and
no sleep after the final attempt), and raises the failure; moreover no run
whatsoever makes more than 3 attempts. -/
theorem callGeminiApi_retryable_backoff (env : Nat → FetchOutcome)
    (h1 : isRetryableOutcome (env 1) = true)
    (h2 : isRetryableOutcome (env 2) = true)
    (h3 : isRetryableOutcome (env 3) = true) :
    (callGeminiApi env).attemptsMade = 3 ∧
    (callGeminiApi env).sleeps = [1000, 2000] ∧
    (∃ e, (callGeminiApi env).result = Except.error e) ∧
    (∀ env2 : Nat → FetchOutcome, (callGeminiApi env2).attemptsMade ≤ 3) := by
  obtain ⟨e, he⟩ := runGemini_last_step env 4000 [1000, 2000] h3
  have hrun : callGeminiApi env =
      { result := Except.error e, sleeps := [1000, 2000], attemptsMade := 3 } := by
    calc callGeminiApi env
        = runGemini env 3 1 1000 [] := rfl
      _ = runGemini env 2 2 2000 [1000] := by
          simpa using runGemini_retry_step env 2 1 1000 [] (by decide) h1
      _ = runGemini env 1 3 4000 [1000, 2000] := by
          simpa using runGemini_retry_step env 1 2 2000 [1000] (by decide) h2
      _ = { result := Except.error e, sleeps := [1000, 2000], attemptsMade := 3 } := he
  refine ⟨by rw [hrun], by rw [hrun], ⟨e, by rw [hrun]⟩, ?_⟩
  intro env2
  simpa using runGemini_attempts_le env2 3 1 1000 []

/-- Witness for C2 at the three-consecutive-overloaded-503 scenario. -/
theorem callGeminiApi_retryable_backoff_witness :
    (callGeminiApi overloadedEnv).attemptsMade = 3 ∧
    (callGeminiApi overloadedEnv).sleeps = [1000, 2000] ∧
    (∃ e, (callGeminiApi overloadedEnv).result = Except.error e) ∧
    (∀ env2 : Nat → FetchOutcome, (callGeminiApi env2).attemptsMade ≤ 3) :=
  callGeminiApi_retryable_backoff overloadedEnv (by decide) (by decide) (by decide)

/-! ### Remote Persistence Client: `supabaseRequest` and `supabaseService` -/

/-- `supabaseRequest` variant at src/unnamed/part_000 lines 277-298: when
Supabase is not configured it warns and resolves with `undefined` (modelled
as `Except.ok none`); otherwise the HTTP request runs, its outcome supplied
by the environment. -/
def supabaseRequestWarnNoop (isSupabaseConfigured : Bool) (_path _method : String)
    (fetchOutcome : Except String (Option String)) : Except String (Option String) :=
  if !isSupabaseConfigured then Except.ok none
  else fetchOutcome

/-- `supabaseRequest` variant at src/unnamed/part_000 lines 227-247 (the
supabaseClient module that also exports the auth client): when Supabase is
not configured it raises `'Supabase is not configured.'`. -/
def supabaseRequestConfigThrow (hasSupabaseConfig : Bool) (_path _method : String)
    (fetchOutcome : Except String (Option String)) : Except String (Option String) :=
  if !hasSupabaseConfig then Except.error "Supabase is not configured."
  else fetchOutcome

/-- C7 counterexample: the claim says the request primitive never raises when
the remote store is unconfigured, but the variant at part_000 lines 227-247
raises `'Supabase is not configured.'` for a POST to `/user_profiles`. -/
theorem supabaseRequest_unconfigured_throws :
    supabaseRequestConfigThrow false "/user_profiles" "POST" (Except.ok none) =
      Except.error "Supabase is not configured." := rfl

/-- C7 (amended): with the remote store unconfigured, the warn-and-skip
variant (part_000 lines 277-298) resolves with `undefined` and never raises,
for every path, method and would-be fetch outcome, while the variant at
lines 227-247 raises `'Supabase is not configured.'` instead. -/
theorem supabaseRequest_unconfigured_behavior (path method : String)
    (fetchOutcome : Except String (Option String)) :
    supabaseRequestWarnNoop false path method fetchOutcome = Except.ok none ∧
    supabaseRequestConfigThrow false path method fetchOutcome =
      Except.error "Supabase is not configured." :=
  ⟨rfl, rfl⟩

/-- Pantry item as held in client state (`types.ts` `Ingredient`). -/
structure Ingredient where
  name : String
  quantity : String
  deriving DecidableEq

/-- Row of the remote `user_ingredients` table. -/
structure UserIngredientRecord where
  user_id : String
  ingredient_name : String
  quantity : String
  deriving DecidableEq

/-- Effect of `DELETE /user_ingredients?user_id=eq.userId` on the remote
table: every row of that user is removed. -/
def deleteUserRows (store : List UserIngredientRecord) (userId : String) :
    List UserIngredientRecord :=
  store.filter (fun r => r.user_id != userId)

/-- The records `replaceUserIngredients` builds from its input items. -/
def ingredientRecordsOf (userId : String) (items : List Ingredient) :
    List UserIngredientRecord :=
  items.map (fun i => { user_id := userId, ingredient_name := i.name, quantity := i.quantity })

/-- `getUserIngredients` (supabaseService.ts): guard on a falsy user id, then
a filtered read of the user's rows. -/
def getUserIngredients (store : List UserIngredientRecord) (userId : String) :
    Except String (List UserIngredientRecord) :=
  if userId = "" then Except.error "User ID is required to fetch ingredients."
  else Except.ok (store.filter (fun r => r.user_id == userId))

/-- `replaceUserIngredients` (supabaseService.ts lines 82-106): guard on a
falsy user id, DELETE all rows of the user, return early on an empty item
list, otherwise bulk-POST the mapped records.  The value is the remote table
after the call. -/
def replaceUserIngredients (store : List UserIngredientRecord) (userId : String)
    (items : List Ingredient) : Except String (List UserIngredientRecord) :=
  if userId = "" then Except.error "User ID is required to update ingredients."
  else
    let afterDelete := deleteUserRows store userId
    if items.isEmpty then Except.ok afterDelete
    else Except.ok (afterDelete ++ ingredientRecordsOf userId items)

/-- `replaceUserIngredients` with the outcome of the bulk-INSERT step
scripted (`some e`: the POST raises `e`); the first component is the remote
table after the call, the second the call's own outcome. -/
def replaceUserIngredientsRun (store : List UserIngredientRecord) (userId : String)
    (items : List Ingredient) (insertError : Option String) :
    List UserIngredientRecord × Except String Unit :=
  if userId = "" then (store, Except.error "User ID is required to update ingredients.")
  else
    let afterDelete := deleteUserRows store userId
    if items.isEmpty then (afterDelete, Except.ok ())
    else
      match insertError with
      | some e => (afterDelete, Except.error e)
      | none => (afterDelete ++ ingredientRecordsOf userId items, Except.ok ())

theorem filter_deleteUserRows (store : List UserIngredientRecord) (u : String) :
    (deleteUserRows store u).filter (fun r => r.user_id == u) = [] := by
  induction store with
  | nil => rfl
  | cons r t ih =>
      unfold deleteUserRows at ih ⊢
      by_cases h : r.user_id = u
      · simp [List.filter_cons, h, ih]
      · simp [List.filter_cons, h, ih]

theorem filter_ingredientRecordsOf (u : String) (items : List Ingredient) :
    (ingredientRecordsOf u items).filter (fun r => r.user_id == u) =
      ingredientRecordsOf u items := by
  induction items with
  | nil => rfl
  | cons i t ih =>
      unfold ingredientRecordsOf at ih ⊢
      simp [List.filter_cons, ih]

/-- C5: for every user id and item list, `replaceUserIngredients` deletes all
of the user's remote rows and then bulk-inserts exactly the provided items,
and a subsequent fetch returns exactly those items (so the empty list leaves
the pantry empty: a destructive replace, not a no-op). -/
theorem replaceUserIngredients_delete_then_insert (store : List UserIngredientRecord)
    (u : String) (items : List Ingredient) (hu : u ≠ "") :
    replaceUserIngredients store u items =
      Except.ok (deleteUserRows store u ++ ingredientRecordsOf u items) ∧
    getUserIngredients (deleteUserRows store u ++ ingredientRecordsOf u items) u =
      Except.ok (ingredientRecordsOf u items) := by
  constructor
  · unfold replaceUserIngredients
    rw [if_neg hu]
    cases items with
    | nil => simp [ingredientRecordsOf]
    | cons i t => simp
  · unfold getUserIngredients
    rw [if_neg hu, List.filter_append, filter_deleteUserRows, filter_ingredientRecordsOf,
      List.nil_append]

def eggRow : UserIngredientRecord :=
  { user_id := "u1", ingredient_name := "Egg", quantity := "2" }

/-- Witness for C5: the spec scenario, replacing the pantry `[Egg x2]` of
user `u1` with the empty list and fetching it back. -/
theorem replaceUserIngredients_delete_then_insert_witness :
    replaceUserIngredients [eggRow] "u1" [] =
      Except.ok (deleteUserRows [eggRow] "u1" ++ ingredientRecordsOf "u1" []) ∧
    getUserIngredients (deleteUserRows [eggRow] "u1" ++ ingredientRecordsOf "u1" []) "u1" =
      Except.ok (ingredientRecordsOf "u1" []) :=
  replaceUserIngredients_delete_then_insert [eggRow] "u1" [] (by decide)

/-- C9: when the DELETE succeeds but the bulk INSERT raises, the call raises
the insert error and the user's remote pantry is left empty - the deleted
rows are not restored, so an error does not imply the remote state is
unchanged. -/
theorem replaceUserIngredients_not_atomic (store : List UserIngredientRecord)
    (u : String) (items : List Ingredient) (e : String) (hu : u ≠ "") (hne : items ≠ []) :
    (replaceUserIngredientsRun store u items (some e)).2 = Except.error e ∧
    getUserIngredients (replaceUserIngredientsRun store u items (some e)).1 u =
      Except.ok [] := by
  have hne' : items.isEmpty = false := by
    cases items with
    | nil => exact absurd rfl hne
    | cons i t => rfl
  unfold replaceUserIngredientsRun
  rw [if_neg hu, hne']
  constructor
  · rfl
  · show getUserIngredients (deleteUserRows store u) u = Except.ok []
    unfold getUserIngredients
    rw [if_neg hu, filter_deleteUserRows]

/-- Witness for C9: a failing INSERT after the DELETE of user `u1`'s pantry
row leaves the pantry empty and surfaces the insert error. -/
theorem replaceUserIngredients_not_atomic_witness :
    (replaceUserIngredientsRun [eggRow] "u1" [{ name := "Milk", quantity := "1" }]
        (some "bulk insert failed")).2 = Except.error "bulk insert failed" ∧
    getUserIngredients
        (replaceUserIngredientsRun [eggRow] "u1" [{ name := "Milk", quantity := "1" }]
          (some "bulk insert failed")).1 "u1" = Except.ok [] :=
  replaceUserIngredients_not_atomic [eggRow] "u1" [{ name := "Milk", quantity := "1" }]
    "bulk insert failed" (by decide) (by decide)

/-! ### Popularity counter: `recordRecipeSearch` (supabaseService.ts) -/

/-- Row of the append-only `search_events` table. -/
structure SearchEvent where
  user_id : Option String
  recipe_name : String
  search_term : String
  deriving DecidableEq

/-- Row of the `recipe_search_counts` table (`recipe_name` is the primary
key). -/
structure RecipeSearchCount where
  recipe_name : String
  search_count : Nat
  deriving DecidableEq

/-- The two remote tables `recordRecipeSearch` touches. -/
structure CounterStore where
  events : List SearchEvent
  counts : List RecipeSearchCount
  deriving DecidableEq

/-- The read `/recipe_search_counts?recipe_name=eq.name` followed by the
client's `existing?.[0]`. -/
def lookupCountRow (counts : List RecipeSearchCount) (name : String) :
    Option RecipeSearchCount :=
  (counts.filter (fun c => c.recipe_name == name)).head?

/-- `existing?.[0]?.search_count ?? 0`. -/
def countOrZero (counts : List RecipeSearchCount) (name : String) : Nat :=
  match lookupCountRow counts name with
  | some c => c.search_count
  | none => 0

/-- Effect on `recipe_search_counts` of a POST with
`Prefer: resolution=merge-duplicates`: the row replaces an existing row with
the same primary key, or is appended. -/
def upsertCountRow (counts : List RecipeSearchCount) (row : RecipeSearchCount) :
    List RecipeSearchCount :=
  if counts.any (fun c => c.recipe_name == row.recipe_name) then
    counts.map (fun c => if c.recipe_name == row.recipe_name then row else c)
  else counts ++ [row]

/-- `recordRecipeSearch` (supabaseService.ts lines 29-62): append the search
event, read the current counter row, write back its count plus one via a
merge-duplicates upsert. -/
def recordRecipeSearch (store : CounterStore) (userId : Option String)
    (recipeName : String) (searchTerm : Option String) : CounterStore :=
  let recipeLabel := recipeName.trim
  let term := (searchTerm.getD recipeLabel).trim
  let nextCount := countOrZero store.counts recipeLabel + 1
  { events := store.events ++
      [{ user_id := userId, recipe_name := recipeLabel, search_term := term }],
    counts := upsertCountRow store.counts
      { recipe_name := recipeLabel, search_count := nextCount } }

/-- The search count the client reads back for `name` (0 when absent). -/
def storedCount (store : CounterStore) (name : String) : Nat :=
  countOrZero store.counts name

theorem lookupCountRow_map_replace (counts : List RecipeSearchCount) (name : String)
    (k : Nat) (h : counts.any (fun c => c.recipe_name == name) = true) :
    lookupCountRow
        (counts.map (fun c =>
          if c.recipe_name == name then { recipe_name := name, search_count := k } else c))
        name = some { recipe_name := name, search_count := k } := by
  induction counts with
  | nil => simp at h
  | cons c t ih =>
      by_cases hc : c.recipe_name = name
      · simp [lookupCountRow, List.filter_cons, hc]
      · have ht : t.any (fun c => c.recipe_name == name) = true := by
          simpa [List.any_cons, hc] using h
        simpa [lookupCountRow, List.filter_cons, hc] using ih ht

theorem lookupCountRow_upsert (counts : List RecipeSearchCount) (name : String) (k : Nat) :
    lookupCountRow (upsertCountRow counts { recipe_name := name, search_count := k }) name =
      some { recipe_name := name, search_count := k } := by
  unfold upsertCountRow
  by_cases h : counts.any (fun c => c.recipe_name == name) = true
  · rw [if_pos h]
    exact lookupCountRow_map_replace counts name k h
  · rw [if_neg h]
    have hnil : counts.filter (fun c => c.recipe_name == name) = [] := by
      rw [List.filter_eq_nil_iff]
      intro c hc hbeq
      exact h (List.any_eq_true.mpr ⟨c, hc, hbeq⟩)
    unfold lookupCountRow
    rw [List.filter_append, hnil, List.nil_append]
    simp [List.filter_cons]

theorem countOrZero_upsert (counts : List RecipeSearchCount) (name : String) (k : Nat) :
    countOrZero
      (upsertCountRow counts { recipe_name := name, search_count := k }) name = k := by
  unfold countOrZero
  rw [lookupCountRow_upsert]

/-- C8: `recordRecipeSearch` appends exactly one search event and then
updates the counter by read-increment-write, so under sequential calls the
stored count for the (trimmed) recipe name becomes the previously stored
count plus one - in particular it never decreases across a call. -/
theorem recordRecipeSearch_increments (store : CounterStore) (u : Option String)
    (name : String) (term : Option String) :
    (recordRecipeSearch store u name term).events =
      store.events ++
        [{ user_id := u, recipe_name := name.trim,
           search_term := (term.getD name.trim).trim }] ∧
    storedCount (recordRecipeSearch store u name term) name.trim =
      storedCount store name.trim + 1 ∧
    storedCount store name.trim ≤
      storedCount (recordRecipeSearch store u name term) name.trim := by
  have h2 : storedCount (recordRecipeSearch store u name term) name.trim =
      storedCount store name.trim + 1 :=
    countOrZero_upsert store.counts name.trim (countOrZero store.counts name.trim + 1)
  exact ⟨rfl, h2, by omega⟩

/-! ### Local-First Sync Engine (`AppContent`, src/unnamed/part_001) -/

/-- Recipe difficulty (`types.ts`). -/
inductive Difficulty where
  | easy
  | medium
  | hard
  deriving DecidableEq

/-- Ingredient substitution suggestion (`types.ts`). -/
structure Substitution where
  missing : String
  substitute : String
  deriving DecidableEq

/-- Recipe as held in client state (`types.ts`). -/
structure Recipe where
  recipeName : String
  englishRecipeName : String
  description : String
  cuisine : String
  cookTime : Nat
  difficulty : Difficulty
  spiciness : Nat
  calories : Nat
  servings : Nat
  ingredients : List String
  missingIngredients : List String
  instructions : List String
  substitutions : List Substitution
  isDetailsLoaded : Bool
  deriving DecidableEq

/-- Row of the remote `user_saved_recipes` table. -/
structure SavedRecipeRecord where
  user_id : String
  recipe_name : String
  recipe_data : Recipe
  deriving DecidableEq

/-- A full-collection push to the remote store, as observed at the
persistence boundary. -/
inductive RemoteWrite where
  | replaceIngredients (userId : String) (items : List Ingredient)
  | replaceSavedRecipes (userId : String) (recipes : List Recipe)
  deriving DecidableEq

/-- The ingredients-push effect of `AppContent` (part_001 lines 190-202):
`if (!currentUser || !ingredientsLoaded) return;` then
`replaceUserIngredients(currentUser.id, ingredients)`.  The value is the
list of remote writes the effect issues. -/
def pushIngredientsEffect (currentUser : Option String) (ingredientsLoaded : Bool)
    (ingredients : List Ingredient) : List RemoteWrite :=
  match currentUser with
  | none => []
  | some uid =>
      if ingredientsLoaded then [RemoteWrite.replaceIngredients uid ingredients] else []

/-- The saved-recipes-push effect of `AppContent` (part_001 lines 204-216):
`if (!currentUser || !savedRecipesLoaded) return;` then
`replaceUserSavedRecipes(currentUser.id, savedRecipes)`. -/
def pushSavedRecipesEffect (currentUser : Option String) (savedRecipesLoaded : Bool)
    (savedRecipes : List Recipe) : List RemoteWrite :=
  match currentUser with
  | none => []
  | some uid =>
      if savedRecipesLoaded then [RemoteWrite.replaceSavedRecipes uid savedRecipes] else []

/-- C3: while a collection's gate flag is false, its push effect issues no
remote write at all, and conversely any issued push implies the gate flag
was true. -/
theorem push_effects_gated (currentUser : Option String) (ingredients : List Ingredient)
    (savedRecipes : List Recipe) :
    pushIngredientsEffect currentUser false ingredients = [] ∧
    pushSavedRecipesEffect currentUser false savedRecipes = [] ∧
    (∀ g, pushIngredientsEffect currentUser g ingredients ≠ [] → g = true) ∧
    (∀ g, pushSavedRecipesEffect currentUser g savedRecipes ≠ [] → g = true) := by
  refine ⟨?_, ?_, ?_, ?_⟩
  · cases currentUser <;> rfl
  · cases currentUser <;> rfl
  · intro g hg
    cases currentUser with
    | none => exact absurd rfl hg
    | some uid =>
        cases g with
        | true => rfl
        | false => exact absurd rfl hg
  · intro g hg
    cases currentUser with
    | none => exact absurd rfl hg
    | some uid =>
        cases g with
        | true => rfl
        | false => exact absurd rfl hg

/-- Witness for C3 at a concrete logged-in user with a pending local pantry
mutation and the gate still false. -/
theorem push_effects_gated_witness :
    pushIngredientsEffect (some "u1") false [{ name := "Egg", quantity := "2" }] = [] :=
  (push_effects_gated (some "u1") [{ name := "Egg", quantity := "2" }] []).1

/-- Per-session state `syncUserData` reads and writes. -/
structure SyncState where
  ingredients : List Ingredient
  savedRecipes : List Recipe
  ingredientsLoaded : Bool
  savedRecipesLoaded : Bool
  deriving DecidableEq

/-- `remoteIngredients.map(item => (\x7b name: item.ingredient_name,
quantity: item.quantity \x7d))`. -/
def ingredientOfRecord (r : UserIngredientRecord) : Ingredient :=
  { name := r.ingredient_name, quantity := r.quantity }

/-- `.catch(() => [])` around one remote fetch. -/
def caughtOrEmpty {α : Type} : Except String (List α) → List α
  | Except.ok v => v
  | Except.error _ => []

/-- `syncUserData` (part_001 lines 243-274): upsert the profile, fetch the
remote pantry and saved recipes with each failure independently caught to
`[]`, overwrite the in-memory collections with the remote results, and in
the `finally` block set both gate flags to true.  A profile-save failure
skips the fetches (the surrounding catch only logs) but the `finally` block
still runs. -/
def syncUserData (profileSave : Except String Unit)
    (fetchIngredients : Except String (List UserIngredientRecord))
    (fetchSaved : Except String (List SavedRecipeRecord))
    (s : SyncState) : SyncState :=
  match profileSave with
  | Except.error _ =>
      { s with ingredientsLoaded := true, savedRecipesLoaded := true }
  | Except.ok _ =>
      let remoteIngredients := caughtOrEmpty fetchIngredients
      let remoteSaved := caughtOrEmpty fetchSaved
      { ingredients :=
          if remoteIngredients.isEmpty then []
          else remoteIngredients.map ingredientOfRecord,
        savedRecipes :=
          if remoteSaved.isEmpty then [] else remoteSaved.map (fun r => r.recipe_data),
        ingredientsLoaded := true,
        savedRecipesLoaded := true }

theorem emptyGuard_map {α β : Type} (l : List α) (f : α → β) :
    (if l.isEmpty then [] else l.map f) = l.map f := by
  cases l <;> simp

/-- C4: once both remote fetches complete - each failure independently
caught and treated as an empty remote collection, never raised - the
in-memory pantry and saved recipes are overwritten with the (converted)
remote results, whatever was cached locally at session start, and both gate
flags are set to true. -/
theorem syncUserData_remote_wins (s : SyncState)
    (fi : Except String (List UserIngredientRecord))
    (fs : Except String (List SavedRecipeRecord)) :
    syncUserData (Except.ok ()) fi fs s =
      { ingredients := (caughtOrEmpty fi).map ingredientOfRecord,
        savedRecipes := (caughtOrEmpty fs).map (fun r => r.recipe_data),
        ingredientsLoaded := true,
        savedRecipesLoaded := true } := by
  simp only [syncUserData]
  rw [emptyGuard_map, emptyGuard_map]

/-! ### Recipe Retrieval Protocol: overview marking and `handleRecipeSelect` -/

/-- The tail of `handleGetRecipeRecommendations` (part_001 lines 723-733):
whatever recipe list the model produced, every overview entry is returned
with empty instructions, empty substitutions and `isDetailsLoaded: false`. -/
def markOverviewResults (parsed : List Recipe) : List Recipe :=
  parsed.map (fun r =>
    { r with instructions := [], substitutions := [], isDetailsLoaded := false })

/-- Stage-B detail payload returned by `getRecipeDetails`. -/
structure RecipeDetails where
  ingredients : List String
  instructions : List String
  substitutions : List Substitution
  deriving DecidableEq

/-- `\x7b...recipe, ...details, isDetailsLoaded: true\x7d` in
`handleRecipeSelect`: the detail fields overwrite the overview's, everything
else is kept. -/
def mergeDetails (r : Recipe) (d : RecipeDetails) : Recipe :=
  { r with ingredients := d.ingredients, instructions := d.instructions,
           substitutions := d.substitutions, isDetailsLoaded := true }

/-- `setRecipes(prev => prev.map(r => r.recipeName === recipe.recipeName ?
updatedRecipe : r))` (RecipeRecommendations.tsx line 123). -/
def updateRecipesList (recipes : List Recipe) (name : String) (updated : Recipe) :
    List Recipe :=
  recipes.map (fun r => if r.recipeName == name then updated else r)

/-- The component state `handleRecipeSelect` touches. -/
structure SelectState where
  recipes : List Recipe
  selected : Option Recipe
  deriving DecidableEq

/-- `handleRecipeSelect` (RecipeRecommendations.tsx lines 104-130):
`detailFetch` scripts the Stage-B `getRecipeDetails` call, issued only when
the inspected recipe's details are not yet loaded; on failure the catch
block only logs, leaving the list untouched. -/
def handleRecipeSelect (st : SelectState) (recipe : Recipe)
    (detailFetch : Except String RecipeDetails) : SelectState :=
  if recipe.isDetailsLoaded then { st with selected := some recipe }
  else
    match detailFetch with
    | Except.error _ => { st with selected := some recipe }
    | Except.ok d =>
        let updated := mergeDetails recipe d
        { recipes := updateRecipesList st.recipes recipe.recipeName updated,
          selected := some updated }

/-- C6: every Stage-A overview result has `isDetailsLoaded = false` with
empty instructions and substitutions; a failed Stage-B call changes nothing
but the selection, keeping the untouched overview object (flag still false,
all fields preserved); and the flag becomes true exactly through the merged
object a successful Stage-B call produces. -/
theorem overview_details_lifecycle :
    (∀ parsed r, r ∈ markOverviewResults parsed →
        r.isDetailsLoaded = false ∧ r.instructions = [] ∧
          r.substitutions = ([] : List Substitution)) ∧
    (∀ st recipe e,
        handleRecipeSelect st recipe (Except.error e) =
          { st with selected := some recipe }) ∧
    (∀ st recipe d, recipe.isDetailsLoaded = false →
        (handleRecipeSelect st recipe (Except.ok d)).selected =
          some (mergeDetails recipe d) ∧
        (mergeDetails recipe d).isDetailsLoaded = true) := by
  refine ⟨?_, ?_, ?_⟩
  · intro parsed r hr
    unfold markOverviewResults at hr
    obtain ⟨a, _, rfl⟩ := List.mem_map.mp hr
    exact ⟨rfl, rfl, rfl⟩
  · intro st recipe e
    unfold handleRecipeSelect
    cases hb : recipe.isDetailsLoaded <;> simp [hb]
  · intro st recipe d h
    unfold handleRecipeSelect
    rw [h]
    exact ⟨rfl, rfl⟩

/-- An overview entry as Stage A produces it. -/
def sampleOverviewRecipe : Recipe :=
  { recipeName := "Kimchi Stew", englishRecipeName := "Kimchi Stew",
    description := "A warming stew", cuisine := "Korean", cookTime := 30,
    difficulty := Difficulty.easy, spiciness := 3, calories := 450, servings := 2,
    ingredients := ["kimchi"], missingIngredients := [],
    instructions := [], substitutions := [], isDetailsLoaded := false }

/-- A Stage-B payload for that recipe. -/
def sampleDetails : RecipeDetails :=
  { ingredients := ["kimchi 200g"], instructions := ["Boil everything."],
    substitutions := [] }

/-- Witness for C6: a successful Stage-B call on a not-yet-loaded overview
recipe selects the merged object, whose flag is now true. -/
theorem overview_details_lifecycle_witness :
    (handleRecipeSelect { recipes := [sampleOverviewRecipe], selected := none }
        sampleOverviewRecipe (Except.ok sampleDetails)).selected =
      some (mergeDetails sampleOverviewRecipe sampleDetails) ∧
    (mergeDetails sampleOverviewRecipe sampleDetails).isDetailsLoaded = true :=
  overview_details_lifecycle.2.2 { recipes := [sampleOverviewRecipe], selected := none }
    sampleOverviewRecipe sampleDetails rfl

theorem getD_map_of_lt {α β : Type} (l : List α) (f : α → β) (i : Nat) (da : α) (db : β)
    (h : i < l.length) : (l.map f).getD i db = f (l.getD i da) := by
  induction l generalizing i with
  | nil => simp at h
  | cons a t ih =>
      cases i with
      | zero => rfl
      | succ n => exact ih n (by simpa using h)

/-- C10: a successful Stage-B merge keeps the list's length, leaves every
entry with a different recipeName unchanged, and replaces every entry
sharing the inspected recipe's recipeName - a colliding duplicate included -
by the single merged object built from the inspected entry. -/
theorem handleRecipeSelect_frame (st : SelectState) (recipe : Recipe) (d : RecipeDetails)
    (h : recipe.isDetailsLoaded = false) :
    (handleRecipeSelect st recipe (Except.ok d)).recipes.length = st.recipes.length ∧
    ∀ i, i < st.recipes.length →
      (handleRecipeSelect st recipe (Except.ok d)).recipes.getD i recipe =
        (if (st.recipes.getD i recipe).recipeName = recipe.recipeName
         then mergeDetails recipe d
         else st.recipes.getD i recipe) := by
  constructor
  · simp [handleRecipeSelect, h, updateRecipesList]
  · intro i hi
    simp only [handleRecipeSelect, h, Bool.false_eq_true, if_false, updateRecipesList]
    rw [getD_map_of_lt st.recipes _ i recipe _ hi]
    by_cases hc : (st.recipes.getD i recipe).recipeName = recipe.recipeName
    · simp [hc]
    · simp [hc]

/-- A colliding duplicate overview entry: same recipeName as
`sampleOverviewRecipe`, different overview fields. -/
def duplicateOverviewRecipe : Recipe :=
  { sampleOverviewRecipe with
    description := "A colliding duplicate entry",
    calories := 999 }

/-- An entry with a different recipeName. -/
def otherRecipe : Recipe :=
  { sampleOverviewRecipe with
    recipeName := "Bibimbap",
    englishRecipeName := "Bibimbap" }

/-- The list state used by the C10 witness. -/
def frameWitnessState : SelectState :=
  { recipes := [sampleOverviewRecipe, duplicateOverviewRecipe, otherRecipe],
    selected := none }

/-- Witness for C10 at the duplicate entry (index 1): it is replaced by the
merged object built from the inspected entry, its own overview fields
overwritten. -/
theorem handleRecipeSelect_frame_witness :
    (handleRecipeSelect frameWitnessState sampleOverviewRecipe
        (Except.ok sampleDetails)).recipes.getD 1 sampleOverviewRecipe =
      (if (frameWitnessState.recipes.getD 1 sampleOverviewRecipe).recipeName =
            sampleOverviewRecipe.recipeName
       then mergeDetails sampleOverviewRecipe sampleDetails
       else frameWitnessState.recipes.getD 1 sampleOverviewRecipe) :=
  (handleRecipeSelect_frame frameWitnessState sampleOverviewRecipe sampleDetails rfl).2
    1 (by decide)

end OhMyCook
